import Mathlib

/-!
Verification of the MCP test server (`src/test-server/mcp_server.py`):
a shallow embedding of the JSON-RPC dispatcher, the per-tool argument
handling, and the restricted arithmetic expression evaluator used by the
`calculate` tool, together with theorems about the frozen claims.

JSON values decoded by Python's `json.loads` are modelled by `Json`.
Python distinguishes `bool` from `int` (though `bool` is an `int`
subclass, `type(True) is bool`); floats are modelled as rationals, which
is exact for the literals and operations the verified properties touch.
-/

inductive Json where
  | null : Json
  | bool : Bool → Json
  | int : Int → Json
  | float : Rat → Json
  | str : String → Json
  | arr : List Json → Json
  | obj : List (String × Json) → Json

/-- Python `type(x).__name__` for each decoded JSON value. -/
def pyTypeName : Json → String
  | .null => "NoneType"
  | .bool _ => "bool"
  | .int _ => "int"
  | .float _ => "float"
  | .str _ => "str"
  | .arr _ => "list"
  | .obj _ => "dict"

/-- Modelled rendering of a Python float: exact for integral values
(`5.0`), a plain fraction otherwise; no verified property depends on the
non-integral case (CPython uses shortest-repr there). -/
def floatRepr (q : Rat) : String :=
  if q.den = 1 then toString q.num ++ ".0"
  else toString q.num ++ "/" ++ toString q.den

mutual
/-- Python `repr(x)` for decoded JSON values (string escaping inside
`repr` of strings is not reproduced; no verified property depends on it). -/
def pyRepr : Json → String
  | .null => "None"
  | .bool true => "True"
  | .bool false => "False"
  | .int n => toString n
  | .float q => floatRepr q
  | .str s => "\x27" ++ s ++ "\x27"
  | .arr xs => "[" ++ pyReprList xs ++ "]"
  | .obj kvs => "\x7b" ++ pyReprObj kvs ++ "\x7d"

def pyReprList : List Json → String
  | [] => ""
  | [x] => pyRepr x
  | x :: y :: xs => pyRepr x ++ ", " ++ pyReprList (y :: xs)

def pyReprObj : List (String × Json) → String
  | [] => ""
  | [(k, v)] => "\x27" ++ k ++ "\x27: " ++ pyRepr v
  | (k, v) :: e :: kvs =>
      "\x27" ++ k ++ "\x27: " ++ pyRepr v ++ ", " ++ pyReprObj (e :: kvs)
end

/-- Python `str(x)` (what an f-string interpolates): strings render as
their contents, everything else as its `repr`. -/
def pyStr : Json → String
  | .str s => s
  | j => pyRepr j

/-- `str()` of a value that may be Python `None` from a failed `dict.get`. -/
def pyStrOpt : Option Json → String
  | none => "None"
  | some j => pyStr j

/-- Association-list lookup modelling `dict.get(k)` on a decoded JSON
object: `none` when the key is absent (Python `None`). A present JSON
`null` is `some .null`, which Python also sees as `None`. -/
def pyGet (kvs : List (String × Json)) (k : String) : Option Json :=
  (kvs.find? (fun p => p.1 = k)).map (·.2)

/-- Python `x is None` for the result of `dict.get`: absent key, or a
present JSON `null`. -/
def isPyNone : Option Json → Bool
  | none => true
  | some .null => true
  | _ => false

/-- Python `==` between a `dict.get` result and a string literal: only a
string with the same contents compares equal. -/
def jEqStr : Option Json → String → Bool
  | some (.str t), s => t == s
  | _, _ => false

/-- The character list `pat` starts the character list `cs`. -/
def leadsWith : List Char → List Char → Bool
  | [], _ => true
  | _ :: _, [] => false
  | p :: ps, c :: cs => p == c && leadsWith ps cs

/-- The character list `pat` occurs somewhere in `cs`. -/
def hasSub : List Char → List Char → Bool
  | pat, [] => leadsWith pat []
  | pat, c :: cs => leadsWith pat (c :: cs) || hasSub pat cs

/-- `pat` occurs as a substring of `s`. -/
def strContains (s pat : String) : Bool :=
  hasSub pat.data s.data

/-!
Python exceptions that can arise inside the dispatcher.  Each carries the
text `str(e)` produces (exception renderings are modelled; the dispatcher
only embeds them verbatim into error messages).
-/

inductive PyExc where
  | synErr : String → PyExc
  | typeErr : String → PyExc
  | zeroDivErr : String → PyExc
  | keyErr : String → PyExc
  | attrErr : String → PyExc

/-- `str(e)` of a caught exception. CPython appends location info to a
`SyntaxError`'s message; that suffix is modelled as a fixed tail. -/
def excStr : PyExc → String
  | .synErr m => m ++ " (<unknown>, line 1)"
  | .typeErr m => m
  | .zeroDivErr m => m
  | .keyErr m => m
  | .attrErr m => m

/-!
The Python `ast` expression nodes reachable from `ast.parse(_, mode='eval')`
that the evaluator in `mcp_server.py` discriminates on.  `Constant` holds
the literal's decoded value (in Python ≥ 3.8 numeric literals also parse
to `Constant`, and the deprecated `ast.Num` check matches exactly the
numeric ones, so both accepting branches of `eval_expr` return the
constant's value).  `Name`, `Call`, `Attribute` and `other` stand for every
node kind the evaluator does not handle.
-/

inductive BinOpKind where
  | add | sub | mult | div | pow | mod | floorDiv | other : BinOpKind

inductive UnaryOpKind where
  | usub | uadd | other : UnaryOpKind

inductive PyAST where
  | const : Json → PyAST
  | binOp : PyAST → BinOpKind → PyAST → PyAST
  | unaryOp : UnaryOpKind → PyAST → PyAST
  | name : String → PyAST
  | call : PyAST → List PyAST → PyAST
  | attr : PyAST → String → PyAST
  | otherNode : String → PyAST

/-- The `ops` dictionary of `mcp_server.py` has entries exactly for
`Add, Sub, Mult, Div, Pow, Mod` (and `USub, UAdd`); any other operator
class misses and `ops[type(node.op)]` raises `KeyError`. -/
def binOpSupported : BinOpKind → Bool
  | .add | .sub | .mult | .div | .pow | .mod => true
  | _ => false

def unaryOpSupported : UnaryOpKind → Bool
  | .usub | .uadd => true
  | .other => false

/-- Modelled `str(KeyError(k))` for the missed `ops` lookup. -/
def binOpKeyMsg : BinOpKind → String
  | .floorDiv => "<class \x27ast.FloorDiv\x27>"
  | _ => "<class \x27ast.operator\x27>"

def unaryOpKeyMsg : UnaryOpKind → String
  | _ => "<class \x27ast.unaryop\x27>"

/-- `f"Unsupported operation: {type(node)}"` in the evaluator's
else-branch. -/
def nodeTypeStr : PyAST → String
  | .name _ => "<class \x27ast.Name\x27>"
  | .call _ _ => "<class \x27ast.Call\x27>"
  | .attr _ _ => "<class \x27ast.Attribute\x27>"
  | .otherNode k => "<class \x27ast." ++ k ++ "\x27>"
  | _ => "<class \x27ast.expr\x27>"

/-!
Python numeric semantics for the six permitted operators, on the values a
parsed constant can hold.  Booleans take part in arithmetic as the
integers 0/1 (`bool` is an `int` subclass); `/` is true division and
always yields a float; `%` follows the sign of the divisor (`Int.fmod`);
`**` on integers yields an integer for non-negative exponents and a float
otherwise.  Results on floats are exact rationals, which agrees with
CPython on every value a verified property evaluates.
-/

/-- The integer a Python `int` or `bool` contributes to arithmetic. -/
def asInt : Json → Option Int
  | .int n => some n
  | .bool b => some (if b then 1 else 0)
  | _ => none

/-- The rational a Python number (`int`, `bool` or `float`) contributes. -/
def asRat : Json → Option Rat
  | .int n => some (n : Rat)
  | .bool b => some (if b then 1 else 0)
  | .float q => some q
  | _ => none

def isFloatJ : Json → Bool
  | .float _ => true
  | _ => false

/-- Shared shape of `+`, `-`, `*` on numbers: stay in `int` unless a
float is involved. -/
def numArith (f : Int → Int → Int) (g : Rat → Rat → Rat) (a b : Json) :
    Option Json :=
  match asRat a, asRat b with
  | some qa, some qb =>
      if isFloatJ a || isFloatJ b then some (.float (g qa qb))
      else match asInt a, asInt b with
        | some na, some nb => some (.int (f na nb))
        | _, _ => none
  | _, _ => none

def unsuppMsg (sym : String) (a b : Json) : String :=
  "unsupported operand type(s) for " ++ sym ++ ": \x27" ++ pyTypeName a ++
    "\x27 and \x27" ++ pyTypeName b ++ "\x27"

/-- `operator.add`: numbers add, strings concatenate, otherwise
`TypeError`. -/
def pyAdd (a b : Json) : Except PyExc Json :=
  match a, b with
  | .str sa, .str sb => .ok (.str (sa ++ sb))
  | _, _ =>
    match numArith (· + ·) (· + ·) a b with
    | some v => .ok v
    | none => .error (.typeErr (unsuppMsg "+" a b))

/-- `operator.sub`: numbers only. -/
def pySub (a b : Json) : Except PyExc Json :=
  match numArith (· - ·) (· - ·) a b with
  | some v => .ok v
  | none => .error (.typeErr (unsuppMsg "-" a b))

/-- `operator.mul`: numbers multiply; a string times an int (either
order) repeats it. -/
def pyMul (a b : Json) : Except PyExc Json :=
  match a, b with
  | .str s, _ =>
      match asInt b with
      | some n => .ok (.str (String.join (List.replicate n.toNat s)))
      | none => .error (.typeErr ("can\x27t multiply sequence by non-int of type \x27" ++ pyTypeName b ++ "\x27"))
  | _, .str s =>
      match asInt a with
      | some n => .ok (.str (String.join (List.replicate n.toNat s)))
      | none => .error (.typeErr ("can\x27t multiply sequence by non-int of type \x27" ++ pyTypeName a ++ "\x27"))
  | _, _ =>
    match numArith (· * ·) (· * ·) a b with
    | some v => .ok v
    | none => .error (.typeErr (unsuppMsg "*" a b))

/-- `operator.truediv`: always a float; zero divisor raises
`ZeroDivisionError`. -/
def pyDiv (a b : Json) : Except PyExc Json :=
  match asRat a, asRat b with
  | some qa, some qb =>
      if qb = 0 then
        .error (.zeroDivErr
          (if isFloatJ a || isFloatJ b then "float division by zero"
           else "division by zero"))
      else .ok (.float (qa / qb))
  | _, _ => .error (.typeErr (unsuppMsg "/" a b))

/-- `operator.mod`: remainder with the divisor's sign; zero divisor
raises `ZeroDivisionError`. -/
def pyMod (a b : Json) : Except PyExc Json :=
  match asRat a, asRat b with
  | some qa, some qb =>
      if qb = 0 then
        .error (.zeroDivErr
          (if isFloatJ a || isFloatJ b then "float modulo"
           else "integer division or modulo by zero"))
      else if isFloatJ a || isFloatJ b then
        .ok (.float (qa - qb * ((qa / qb).floor : Rat)))
      else match asInt a, asInt b with
        | some na, some nb => .ok (.int (na.fmod nb))
        | _, _ => .error (.typeErr (unsuppMsg "%" a b))
  | _, _ => .error (.typeErr (unsuppMsg "%" a b))

/-- `operator.pow`: integer result for integer base and non-negative
integer exponent; exact rational otherwise.  A non-integral exponent
calls for real-valued powers, outside this rational model: modelled as a
`TypeError` (no verified property evaluates such an expression). -/
def pyPow (a b : Json) : Except PyExc Json :=
  match asRat a, asRat b with
  | some qa, some qb =>
      if qb.den = 1 then
        if 0 ≤ qb.num then
          match asInt a, asInt b with
          | some na, some nb => .ok (.int (na ^ nb.toNat))
          | _, _ => .ok (.float (qa ^ qb.num.toNat))
        else if qa = 0 then
          .error (.zeroDivErr "0.0 cannot be raised to a negative power")
        else .ok (.float (qa ^ qb.num))
      else .error (.typeErr "model: non-integral exponent outside the rational model")
  | _, _ => .error (.typeErr (unsuppMsg "** or pow()" a b))

/-- Apply one of the six supported binary operators. -/
def applyBin : BinOpKind → Json → Json → Except PyExc Json
  | .add, a, b => pyAdd a b
  | .sub, a, b => pySub a b
  | .mult, a, b => pyMul a b
  | .div, a, b => pyDiv a b
  | .pow, a, b => pyPow a b
  | .mod, a, b => pyMod a b
  | _, a, b => .error (.typeErr (unsuppMsg "?" a b))

/-- `operator.neg` / `operator.pos`: numbers only; booleans become ints. -/
def applyUnary : UnaryOpKind → Json → Except PyExc Json
  | .usub, v =>
      (match v with
       | .int n => .ok (.int (-n))
       | .bool b => .ok (.int (if b then -1 else 0))
       | .float q => .ok (.float (-q))
       | _ => .error (.typeErr ("bad operand type for unary -: \x27" ++ pyTypeName v ++ "\x27")))
  | .uadd, v =>
      (match v with
       | .int n => .ok (.int n)
       | .bool b => .ok (.int (if b then 1 else 0))
       | .float q => .ok (.float q)
       | _ => .error (.typeErr ("bad operand type for unary +: \x27" ++ pyTypeName v ++ "\x27")))
  | .other, v => .error (.typeErr ("bad operand type for unary: \x27" ++ pyTypeName v ++ "\x27"))

/-- The recursive tree walker `eval_expr` of `mcp_server.py`: a constant
(either the `ast.Num` branch or the `ast.Constant` branch — both return
the constant's value), a binary or unary operation whose operator class
is looked up in `ops` (a missing class raises `KeyError` before the
operands are evaluated), and a `TypeError` for every other node kind. -/
def eval_expr : PyAST → Except PyExc Json
  | .const v => .ok v
  | .binOp l op r =>
      if binOpSupported op then do
        let lv ← eval_expr l
        let rv ← eval_expr r
        applyBin op lv rv
      else .error (.keyErr (binOpKeyMsg op))
  | .unaryOp op e =>
      if unaryOpSupported op then do
        let v ← eval_expr e
        applyUnary op v
      else .error (.keyErr (unaryOpKeyMsg op))
  | t => .error (.typeErr ("Unsupported operation: " ++ nodeTypeStr t))

/-!
A model of `ast.parse(expression, mode='eval')` on the fragment the
`calculate` tool is specified over: integer and decimal literals, the
keyword constants `True`/`False`/`None`, string literals, identifiers,
the binary operators `+ - * / // % **`, unary `+ -`, and parentheses.
Statement keywords (`import`, `lambda`, ...) and any character outside
this fragment are syntax errors; CPython additionally accepts constructs
(attribute access, calls, comparisons, ...) that the evaluator then
rejects with a `TypeError` — either way the `calculate` tool surfaces
code `-32602`, and no verified property depends on those inputs' error
messages.
-/

inductive Tok where
  | num : Json → Tok
  | strTok : String → Tok
  | ident : String → Tok
  | plus | minus | star | dstar | slash | dslash | percent | lparen | rparen : Tok

def natOfDigits (ds : List Char) : Nat :=
  ds.foldl (fun a c => a * 10 + (c.toNat - 48)) 0

/-- The decoded value of a numeric literal: an int, or a float when a
decimal point is present. -/
def numLit (intDs fracDs : List Char) (hasDot : Bool) : Json :=
  if hasDot then
    .float ((natOfDigits intDs : Rat) +
      (natOfDigits fracDs : Rat) / ((10 : Rat) ^ fracDs.length))
  else .int (natOfDigits intDs)

def isIdentStart (c : Char) : Bool := c.isAlpha || c = '_'
def isIdentCont (c : Char) : Bool := c.isAlpha || c.isDigit || c = '_'

def quoteChar : Char := Char.ofNat 39

def tokenize : Nat → List Char → Except PyExc (List Tok)
  | _, [] => .ok []
  | 0, _ => .error (.synErr "tokenizer fuel exhausted")
  | n + 1, c :: cs =>
    if c = ' ' || c = '\t' || c = '\n' || c = '\r' then tokenize n cs
    else if c.isDigit then
      let (ds, rest1) := cs.span (·.isDigit)
      match rest1 with
      | '.' :: rest2 =>
        let (fs, rest3) := rest2.span (·.isDigit)
        do let ts ← tokenize n rest3
           .ok (.num (numLit (c :: ds) fs true) :: ts)
      | _ =>
        do let ts ← tokenize n rest1
           .ok (.num (numLit (c :: ds) [] false) :: ts)
    else if c = '.' then
      match cs with
      | d :: _ =>
        if d.isDigit then
          let (fs, rest1) := cs.span (·.isDigit)
          do let ts ← tokenize n rest1
             .ok (.num (numLit [] fs true) :: ts)
        else .error (.synErr "invalid syntax")
      | [] => .error (.synErr "invalid syntax")
    else if isIdentStart c then
      let (is, rest1) := cs.span isIdentCont
      do let ts ← tokenize n rest1
         .ok (.ident (String.mk (c :: is)) :: ts)
    else if c = '"' || c = quoteChar then
      let (body, rest1) := cs.span (· ≠ c)
      match rest1 with
      | _ :: rest2 =>
        do let ts ← tokenize n rest2
           .ok (.strTok (String.mk body) :: ts)
      | [] => .error (.synErr "unterminated string literal (detected at line 1)")
    else if c = '*' then
      match cs with
      | '*' :: rest1 => do let ts ← tokenize n rest1; .ok (.dstar :: ts)
      | _ => do let ts ← tokenize n cs; .ok (.star :: ts)
    else if c = '/' then
      match cs with
      | '/' :: rest1 => do let ts ← tokenize n rest1; .ok (.dslash :: ts)
      | _ => do let ts ← tokenize n cs; .ok (.slash :: ts)
    else if c = '+' then do let ts ← tokenize n cs; .ok (.plus :: ts)
    else if c = '-' then do let ts ← tokenize n cs; .ok (.minus :: ts)
    else if c = '%' then do let ts ← tokenize n cs; .ok (.percent :: ts)
    else if c = '(' then do let ts ← tokenize n cs; .ok (.lparen :: ts)
    else if c = ')' then do let ts ← tokenize n cs; .ok (.rparen :: ts)
    else .error (.synErr "invalid syntax")

/-- Python keywords other than the constants `True`/`False`/`None`: using
one as an atom is a syntax error. -/
def pyKeywords : List String :=
  ["and", "as", "assert", "async", "await", "break", "class", "continue",
   "def", "del", "elif", "else", "except", "finally", "for", "from",
   "global", "if", "import", "in", "is", "lambda", "nonlocal", "not",
   "or", "pass", "raise", "return", "try", "while", "with", "yield"]

mutual
def parseExpr : Nat → List Tok → Except PyExc (PyAST × List Tok)
  | 0, _ => .error (.synErr "expression too deeply nested")
  | n + 1, ts => do
      let (l, ts1) ← parseTerm n ts
      parseExprTail n l ts1

def parseExprTail : Nat → PyAST → List Tok → Except PyExc (PyAST × List Tok)
  | 0, _, _ => .error (.synErr "expression too deeply nested")
  | n + 1, l, .plus :: ts => do
      let (r, ts1) ← parseTerm n ts
      parseExprTail n (.binOp l .add r) ts1
  | n + 1, l, .minus :: ts => do
      let (r, ts1) ← parseTerm n ts
      parseExprTail n (.binOp l .sub r) ts1
  | _ + 1, l, ts => .ok (l, ts)

def parseTerm : Nat → List Tok → Except PyExc (PyAST × List Tok)
  | 0, _ => .error (.synErr "expression too deeply nested")
  | n + 1, ts => do
      let (l, ts1) ← parseUnary n ts
      parseTermTail n l ts1

def parseTermTail : Nat → PyAST → List Tok → Except PyExc (PyAST × List Tok)
  | 0, _, _ => .error (.synErr "expression too deeply nested")
  | n + 1, l, .star :: ts => do
      let (r, ts1) ← parseUnary n ts
      parseTermTail n (.binOp l .mult r) ts1
  | n + 1, l, .slash :: ts => do
      let (r, ts1) ← parseUnary n ts
      parseTermTail n (.binOp l .div r) ts1
  | n + 1, l, .dslash :: ts => do
      let (r, ts1) ← parseUnary n ts
      parseTermTail n (.binOp l .floorDiv r) ts1
  | n + 1, l, .percent :: ts => do
      let (r, ts1) ← parseUnary n ts
      parseTermTail n (.binOp l .mod r) ts1
  | _ + 1, l, ts => .ok (l, ts)

def parseUnary : Nat → List Tok → Except PyExc (PyAST × List Tok)
  | 0, _ => .error (.synErr "expression too deeply nested")
  | n + 1, .plus :: ts => do
      let (e, ts1) ← parseUnary n ts
      .ok (.unaryOp .uadd e, ts1)
  | n + 1, .minus :: ts => do
      let (e, ts1) ← parseUnary n ts
      .ok (.unaryOp .usub e, ts1)
  | n + 1, ts => parsePower n ts

def parsePower : Nat → List Tok → Except PyExc (PyAST × List Tok)
  | 0, _ => .error (.synErr "expression too deeply nested")
  | n + 1, ts => do
      let (b, ts1) ← parseAtom n ts
      match ts1 with
      | .dstar :: ts2 => do
          let (e, ts3) ← parseUnary n ts2
          .ok (.binOp b .pow e, ts3)
      | _ => .ok (b, ts1)

def parseAtom : Nat → List Tok → Except PyExc (PyAST × List Tok)
  | 0, _ => .error (.synErr "expression too deeply nested")
  | _ + 1, .num v :: ts => .ok (.const v, ts)
  | _ + 1, .strTok s :: ts => .ok (.const (.str s), ts)
  | _ + 1, .ident s :: ts =>
      if s = "True" then .ok (.const (.bool true), ts)
      else if s = "False" then .ok (.const (.bool false), ts)
      else if s = "None" then .ok (.const .null, ts)
      else if pyKeywords.contains s then .error (.synErr "invalid syntax")
      else .ok (.name s, ts)
  | n + 1, .lparen :: ts => do
      let (e, ts1) ← parseExpr n ts
      match ts1 with
      | .rparen :: ts2 => .ok (e, ts2)
      | _ => .error (.synErr "\x27(\x27 was never closed")
  | _ + 1, _ => .error (.synErr "invalid syntax")
end

/-- `ast.parse(s, mode='eval')`: tokenize, parse one expression, require
the whole input to be consumed.  The empty (or all-whitespace) string is
a syntax error. -/
def pyParseEval (s : String) : Except PyExc PyAST := do
  let ts ← tokenize (s.length + 1) s.toList
  match ts with
  | [] => .error (.synErr "invalid syntax")
  | _ => do
    let (e, rest) ← parseExpr (4 * ts.length + 4) ts
    match rest with
    | [] => .ok e
    | _ => .error (.synErr "invalid syntax")

/-- The `calculate` pipeline on a string: `ast.parse` then `eval_expr`
on the tree's body. -/
def calcStr (s : String) : Except PyExc Json := do
  let t ← pyParseEval s
  eval_expr t

/-- `ast.parse` applied to whatever value `arguments.get("expression", "")`
produced: a non-string raises a `TypeError` before parsing. -/
def calcJson : Json → Except PyExc Json
  | .str s => calcStr s
  | j => .error (.typeErr ("expected str, got " ++ pyTypeName j))

/-!
The tool registry of `MCPServer.__init__`: seven descriptors, each with
the input schema transcribed from the source (`get_time`, `server_info`
and `generate_uuid` declare no `required` list).
-/

structure PropSchema where
  ty : String
  description : String

structure InputSchema where
  ty : String
  properties : List (String × PropSchema)
  required : Option (List String)

structure MCPTool where
  name : String
  description : String
  input_schema : InputSchema

def echoTool : MCPTool :=
  { name := "echo"
    description := "Echoes back the input text"
    input_schema :=
      { ty := "object"
        properties := [("text", { ty := "string", description := "Text to echo back" })]
        required := some ["text"] } }

def addNumbersTool : MCPTool :=
  { name := "add_numbers"
    description := "Adds two numbers together"
    input_schema :=
      { ty := "object"
        properties :=
          [("a", { ty := "number", description := "First number" }),
           ("b", { ty := "number", description := "Second number" })]
        required := some ["a", "b"] } }

def getTimeTool : MCPTool :=
  { name := "get_time"
    description := "Returns the current server time"
    input_schema := { ty := "object", properties := [], required := none } }

def reverseStringTool : MCPTool :=
  { name := "reverse_string"
    description := "Reverses a string"
    input_schema :=
      { ty := "object"
        properties := [("text", { ty := "string", description := "Text to reverse" })]
        required := some ["text"] } }

def serverInfoTool : MCPTool :=
  { name := "server_info"
    description := "Returns information about the MCP server"
    input_schema := { ty := "object", properties := [], required := none } }

def calculateTool : MCPTool :=
  { name := "calculate"
    description := "Performs basic mathematical calculations"
    input_schema :=
      { ty := "object"
        properties :=
          [("expression",
            { ty := "string"
              description := "Mathematical expression to evaluate (e.g., \x272 + 3 * 4\x27)" })]
        required := some ["expression"] } }

def generateUuidTool : MCPTool :=
  { name := "generate_uuid"
    description := "Generates a random UUID"
    input_schema := { ty := "object", properties := [], required := none } }

def tools : List MCPTool :=
  [echoTool, addNumbersTool, getTimeTool, reverseStringTool,
   serverInfoTool, calculateTool, generateUuidTool]

/-!
JSON-RPC envelopes.  A response dict built by the server carries the
echoed request id together with either a `result` member or an `error`
member; the structure below leaves room for both (or neither), so that
well-formedness is a provable property rather than a typing artefact of
the model alone.
-/

structure ErrObj where
  code : Int
  message : String

structure JsonRpcResponse where
  id : Option Json
  result : Option Json
  error : Option ErrObj

def errResp (rid : Option Json) (code : Int) (msg : String) : JsonRpcResponse :=
  { id := rid, result := none, error := some { code := code, message := msg } }

def okResp (rid : Option Json) (r : Json) : JsonRpcResponse :=
  { id := rid, result := some r, error := none }

/-- The `{"content": [{"type": "text", "text": t}, ...]}` result shape
every tool success produces. -/
def contentJson (texts : List String) : Json :=
  .obj [("content", .arr (texts.map fun t =>
    .obj [("type", .str "text"), ("text", .str t)]))]

/-- Ambient process facts the impure tools format into their replies
(`datetime.now()`, `os.getpid()`, `sys.version`, `uuid.uuid4()`, and the
already-formatted uptime fragment). -/
structure Env where
  now : String
  uptime : String
  pid : Int
  pyVersion : String
  uuidStr : String

/-- `dict.get` on a value that must be a dict: any other type raises
`AttributeError` (`arguments` defaulted to `{}` but a caller can pass
any JSON value for it). -/
def pyDictGet : Json → String → Except PyExc (Option Json)
  | .obj kvs, k => .ok (pyGet kvs k)
  | j, _ =>
      .error (.attrErr ("\x27" ++ pyTypeName j ++ "\x27 object has no attribute \x27get\x27"))

/-- `text[::-1]`: reverses a string or a list, raises `TypeError` for
anything not sliceable. -/
def pyReverse : Json → Except PyExc Json
  | .str s => .ok (.str (String.mk s.data.reverse))
  | .arr xs => .ok (.arr xs.reverse)
  | .obj _ => .error (.typeErr "unhashable type: \x27slice\x27")
  | j => .error (.typeErr ("\x27" ++ pyTypeName j ++ "\x27 object is not subscriptable"))

/-- Outcome of the dispatch body inside `handle_tools_call`'s `try`:
every early `return` in the source is an error envelope (carrying the
request id), and every fall-through assigns a `result` whose content is
a single text item. -/
inductive ToolOutcome where
  | errorOut : Int → String → ToolOutcome
  | success : List String → ToolOutcome

/-- `isinstance(x, (int, float)) and not isinstance(x, bool)` — the
add_numbers numeric check (booleans are `int` subclasses in Python, so
the source excludes them explicitly). -/
def isNumNonBool : Json → Bool
  | .int _ => true
  | .float _ => true
  | _ => false

/-- `a + b` on two values that passed the numeric check. -/
def numSum (a b : Json) : Json :=
  match numArith (· + ·) (· + ·) a b with
  | some v => v
  | none => .null

/-- The `add_numbers` validation after the two `arguments.get` calls:
presence check (`None` covers both an absent key and JSON `null`),
numeric check, then the sum. -/
def addNumbersCheck : Option Json → Option Json → ToolOutcome
  | none, _ =>
      .errorOut (-32602) "Invalid params: Both \x27a\x27 and \x27b\x27 parameters are required"
  | _, none =>
      .errorOut (-32602) "Invalid params: Both \x27a\x27 and \x27b\x27 parameters are required"
  | some .null, _ =>
      .errorOut (-32602) "Invalid params: Both \x27a\x27 and \x27b\x27 parameters are required"
  | _, some .null =>
      .errorOut (-32602) "Invalid params: Both \x27a\x27 and \x27b\x27 parameters are required"
  | some ja, some jb =>
      if isNumNonBool ja && isNumNonBool jb then
        .success ["The sum of " ++ pyStr ja ++ " and " ++ pyStr jb ++
          " is " ++ pyStr (numSum ja jb)]
      else
        .errorOut (-32602)
          ("Invalid params: Both parameters must be numbers. Got a=" ++
           pyTypeName ja ++ "(" ++ pyStr ja ++ "), b=" ++
           pyTypeName jb ++ "(" ++ pyStr jb ++ ")")

/-- The `add_numbers` branch including its inner `try` body. -/
def addNumbersBody (argsJ : Json) : Except PyExc ToolOutcome := do
  let a ← pyDictGet argsJ "a"
  let b ← pyDictGet argsJ "b"
  .ok (addNumbersCheck a b)

/-- The body of the `try` in `MCPServer.handle_tools_call`: name-based
dispatch over the seven tools, the inner `try` of `add_numbers` and of
`calculate` resolved locally, the unknown-tool fallthrough, and any
uncaught exception propagated to the caller. -/
def toolsCallBody (env : Env) (params : List (String × Json)) :
    Except PyExc ToolOutcome :=
  let tool_name := pyGet params "name"
  let argsJ := (pyGet params "arguments").getD (.obj [])
  if jEqStr tool_name "echo" then do
    let t ← pyDictGet argsJ "text"
    .ok (.success ["Echo: " ++ pyStr (t.getD (.str ""))])
  else if jEqStr tool_name "add_numbers" then
    match addNumbersBody argsJ with
    | .ok o => .ok o
    | .error e => .ok (.errorOut (-32603) ("Internal error in add_numbers: " ++ excStr e))
  else if jEqStr tool_name "get_time" then
    .ok (.success ["Current server time: " ++ env.now])
  else if jEqStr tool_name "reverse_string" then do
    let t ← pyDictGet argsJ "text"
    let rev ← pyReverse (t.getD (.str ""))
    .ok (.success ["Reversed: " ++ pyStr rev])
  else if jEqStr tool_name "server_info" then
    .ok (.success ["MCP Test Server Info:\n- Version: 1.0.0\n- Protocol: 2024-11-05\n- Tools: " ++
      toString tools.length ++ "\n- Uptime: " ++ env.uptime ++ "\n- PID: " ++
      toString env.pid ++ "\n- Python: " ++ env.pyVersion])
  else if jEqStr tool_name "calculate" then do
    let eArg ← pyDictGet argsJ "expression"
    let expression := eArg.getD (.str "")
    match calcJson expression with
    | .ok v =>
        .ok (.success ["Expression: " ++ pyStr expression ++ "\nResult: " ++ pyStr v])
    | .error e =>
        .ok (.errorOut (-32602)
          ("Invalid expression \x27" ++ pyStr expression ++ "\x27: " ++ excStr e))
  else if jEqStr tool_name "generate_uuid" then
    .ok (.success ["Generated UUID: " ++ env.uuidStr])
  else
    .ok (.errorOut (-32601) ("Unknown tool: " ++ pyStrOpt tool_name))

/-- `MCPServer.handle_tools_call`: run the dispatch body; an early error
return or a success result becomes the envelope, and an exception that
reached the outer `except` becomes `InternalError` (`-32603`) with the
exception text embedded. -/
def handle_tools_call (env : Env) (rid : Option Json)
    (params : List (String × Json)) : JsonRpcResponse :=
  match toolsCallBody env params with
  | .ok (.errorOut c m) => errResp rid c m
  | .ok (.success texts) => okResp rid (contentJson texts)
  | .error e => errResp rid (-32603) ("Internal error: " ++ excStr e)

def schemaToJson (s : InputSchema) : Json :=
  .obj ([("type", .str s.ty),
         ("properties", .obj (s.properties.map fun p =>
           (p.1, .obj [("type", .str p.2.ty), ("description", .str p.2.description)])))] ++
    (match s.required with
     | some r => [("required", .arr (r.map .str))]
     | none => []))

def toolToJson (t : MCPTool) : Json :=
  .obj [("name", .str t.name), ("description", .str t.description),
        ("inputSchema", schemaToJson t.input_schema)]

/-- `MCPServer.handle_tools_list`. -/
def handle_tools_list (rid : Option Json) : JsonRpcResponse :=
  okResp rid (.obj [("tools", .arr (tools.map toolToJson))])

/-- `MCPServer.handle_initialize`. -/
def handle_initialize (rid : Option Json) : JsonRpcResponse :=
  okResp rid (.obj
    [("protocolVersion", .str "2024-11-05"),
     ("capabilities", .obj [("tools", .obj [("listChanged", .bool true)])]),
     ("serverInfo", .obj [("name", .str "MCP Test Server"), ("version", .str "1.0.0")])])

/-- The routing in `MCPRequestHandler.do_POST` after JSON decoding:
method comparison in source order, with the method-not-found fallback.
`tools/call` reads `params.get(...)` before its own `try`, so a
non-dict `params` raises `AttributeError` into `do_POST`'s `except`,
which answers with a `-32700` envelope and a null id. -/
def handleRequest (env : Env) (method : Option Json) (rid : Option Json)
    (paramsJ : Json) : JsonRpcResponse :=
  if jEqStr method "tools/list" then handle_tools_list rid
  else if jEqStr method "tools/call" then
    match paramsJ with
    | .obj kvs => handle_tools_call env rid kvs
    | j => errResp none (-32700)
        ("Parse error: \x27" ++ pyTypeName j ++ "\x27 object has no attribute \x27get\x27")
  else if jEqStr method "initialize" then handle_initialize rid
  else errResp rid (-32601) ("Method not found: " ++ pyStrOpt method)

/-!
Shared fixtures and statements of the verified properties.
-/

/-- A concrete ambient environment for closed evaluations (the tools that
consume it only format its fields into text). -/
def sampleEnv : Env :=
  { now := "2026-01-01T00:00:00"
    uptime := "1.0 seconds"
    pid := 1234
    pyVersion := "3.11.9"
    uuidStr := "00000000-0000-0000-0000-000000000000" }

/-- A concrete request id. -/
def rid1 : Option Json := some (.int 1)

/-- The `params` object of a `tools/call` request naming a tool and
carrying an arguments object. -/
def callParams (name : String) (args : List (String × Json)) :
    List (String × Json) :=
  [("name", .str name), ("arguments", .obj args)]

/-- The registered tool names, in registration order. -/
def registryNames : List String := tools.map MCPTool.name

/-- Modelled from the spec (sections 4.2 and 4.3): the per-tool contract a
well-formed argument mapping satisfies — echo accepts anything; the
argument-free tools ignore their arguments; add_numbers wants two
non-boolean numbers; reverse_string wants its optional text to be a
string; calculate wants an expression string the evaluator completes on. -/
def wellFormedArgs (name : String) (args : List (String × Json)) : Prop :=
  if name = "add_numbers" then
    (∃ ja, pyGet args "a" = some ja ∧ isNumNonBool ja = true) ∧
    (∃ jb, pyGet args "b" = some jb ∧ isNumNonBool jb = true)
  else if name = "reverse_string" then
    pyGet args "text" = none ∨ ∃ s, pyGet args "text" = some (.str s)
  else if name = "calculate" then
    ∃ s v, pyGet args "expression" = some (.str s) ∧ calcStr s = .ok v
  else True

/-- C7: the calculate tool evaluates with standard precedence and
parenthesized grouping — "2 + 3 * 4" yields result text containing "14",
"(2+3)*4" yields result text containing "20", and "import os" yields
error code -32602. -/
theorem calculate_precedence_grouping_rejection :
    (handle_tools_call sampleEnv rid1 (callParams "calculate" [("expression", .str "2 + 3 * 4")]) =
       okResp rid1 (contentJson ["Expression: 2 + 3 * 4\nResult: 14"]) ∧
     strContains "Expression: 2 + 3 * 4\nResult: 14" "14" = true) ∧
    (handle_tools_call sampleEnv rid1 (callParams "calculate" [("expression", .str "(2+3)*4")]) =
       okResp rid1 (contentJson ["Expression: (2+3)*4\nResult: 20"]) ∧
     strContains "Expression: (2+3)*4\nResult: 20" "20" = true) ∧
    (handle_tools_call sampleEnv rid1 (callParams "calculate" [("expression", .str "import os")])).error =
       some { code := -32602,
              message := "Invalid expression \x27import os\x27: invalid syntax (<unknown>, line 1)" } :=
  ⟨⟨rfl, by decide⟩, ⟨rfl, by decide⟩, rfl⟩

/-- C9: a `tools/call` whose params carry no "name" key is answered with
-32601 "Unknown tool: None", not with InvalidParams. -/
theorem missing_name_is_unknown_tool_none (env : Env) (rid : Option Json)
    (params : List (String × Json)) (h : pyGet params "name" = none) :
    handle_tools_call env rid params = errResp rid (-32601) "Unknown tool: None" := by
  unfold handle_tools_call toolsCallBody
  rw [h]
  rfl

theorem missing_name_is_unknown_tool_none_witness :
    pyGet ([] : List (String × Json)) "name" = none ∧
    handle_tools_call sampleEnv rid1 [] = errResp rid1 (-32601) "Unknown tool: None" :=
  ⟨rfl, missing_name_is_unknown_tool_none sampleEnv rid1 [] rfl⟩

/-- C10: the echo and reverse_string descriptors advertise "text" as
required (and tools/list serializes exactly the registry), yet a
tools/call on either tool with an empty arguments object succeeds — the
advertised required list is not enforced during dispatch. -/
theorem required_text_advertised_but_unenforced (env : Env) (rid : Option Json) :
    echoTool.input_schema.required = some ["text"] ∧
    reverseStringTool.input_schema.required = some ["text"] ∧
    handle_tools_list rid = okResp rid (.obj [("tools", .arr (tools.map toolToJson))]) ∧
    handle_tools_call env rid (callParams "echo" []) = okResp rid (contentJson ["Echo: "]) ∧
    handle_tools_call env rid (callParams "reverse_string" []) =
      okResp rid (contentJson ["Reversed: "]) :=
  ⟨rfl, rfl, rfl, rfl, rfl⟩

/-- C1 counterexample: the evaluator does not restrict atoms to numeric
literals — the expression "True" parses to a boolean `Constant`, which
`eval_expr`'s `ast.Constant` branch returns as a value, so the call
succeeds instead of being rejected as a parse error. -/
theorem calculate_accepts_boolean_constant :
    pyParseEval "True" = .ok (.const (.bool true)) ∧
    handle_tools_call sampleEnv rid1 (callParams "calculate" [("expression", .str "True")]) =
      okResp rid1 (contentJson ["Expression: True\nResult: True"]) :=
  ⟨rfl, rfl⟩

/-- C1 amended: the atoms the evaluator accepts are constant literals of
any kind (the `ast.Num`/`ast.Constant` branches return the constant's
value, booleans and strings included); the only operator kinds it
applies are the six in `ops`, an operator class outside `ops` raising
`KeyError`; and identifier, call, attribute and every other node kind is
rejected with a `TypeError`, never evaluated. -/
theorem eval_expr_atoms_and_operators (t : PyAST) :
    (∀ v, t = .const v → eval_expr t = .ok v) ∧
    (∀ i, t = .name i → ∃ m, eval_expr t = .error (.typeErr m)) ∧
    (∀ f as_, t = .call f as_ → ∃ m, eval_expr t = .error (.typeErr m)) ∧
    (∀ o a, t = .attr o a → ∃ m, eval_expr t = .error (.typeErr m)) ∧
    (∀ k, t = .otherNode k → ∃ m, eval_expr t = .error (.typeErr m)) ∧
    (∀ l op r, t = .binOp l op r → binOpSupported op = false →
       ∃ m, eval_expr t = .error (.keyErr m)) ∧
    (∀ op e, t = .unaryOp op e → unaryOpSupported op = false →
       ∃ m, eval_expr t = .error (.keyErr m)) := by
  refine ⟨?_, ?_, ?_, ?_, ?_, ?_, ?_⟩
  · rintro v rfl; rfl
  · rintro i rfl; exact ⟨_, rfl⟩
  · rintro f as_ rfl; exact ⟨_, rfl⟩
  · rintro o a rfl; exact ⟨_, rfl⟩
  · rintro k rfl; exact ⟨_, rfl⟩
  · rintro l op r rfl hop
    refine ⟨binOpKeyMsg op, ?_⟩
    simp [eval_expr, hop]
  · rintro op e rfl hop
    refine ⟨unaryOpKeyMsg op, ?_⟩
    simp [eval_expr, hop]

theorem eval_expr_atoms_and_operators_witness :
    eval_expr (.const (.str "x")) = .ok (.str "x") ∧
    (∃ m, eval_expr (.name "os") = .error (.typeErr m)) ∧
    (∃ m, eval_expr (.binOp (.const (.int 7)) .floorDiv (.const (.int 2))) =
       .error (.keyErr m)) :=
  ⟨(eval_expr_atoms_and_operators (.const (.str "x"))).1 _ rfl,
   (eval_expr_atoms_and_operators (.name "os")).2.1 _ rfl,
   (eval_expr_atoms_and_operators
      (.binOp (.const (.int 7)) .floorDiv (.const (.int 2)))).2.2.2.2.2.1 _ _ _ rfl rfl⟩

/-- C2: every `tools/call` dispatch produces exactly one envelope with
either a result member or an error member — never both, never neither —
and any exception that escapes the dispatch body is converted at the
boundary into `InternalError` (-32603) with the exception text embedded. -/
theorem tools_call_envelope_wellformed (env : Env) (rid : Option Json)
    (params : List (String × Json)) :
    (((handle_tools_call env rid params).result.isSome = true ∧
        (handle_tools_call env rid params).error = none) ∨
     ((handle_tools_call env rid params).result = none ∧
        (handle_tools_call env rid params).error.isSome = true)) ∧
    (∀ e, toolsCallBody env params = .error e →
       handle_tools_call env rid params =
         errResp rid (-32603) ("Internal error: " ++ excStr e)) := by
  constructor
  · unfold handle_tools_call
    cases h : toolsCallBody env params with
    | ok o =>
      cases o with
      | errorOut c m => right; exact ⟨rfl, rfl⟩
      | success ts => left; exact ⟨rfl, rfl⟩
    | error e => right; exact ⟨rfl, rfl⟩
  · intro e he
    unfold handle_tools_call
    rw [he]

theorem tools_call_envelope_wellformed_witness :
    toolsCallBody sampleEnv (callParams "reverse_string" [("text", .int 42)]) =
      .error (.typeErr "\x27int\x27 object is not subscriptable") ∧
    handle_tools_call sampleEnv rid1 (callParams "reverse_string" [("text", .int 42)]) =
      errResp rid1 (-32603)
        ("Internal error: " ++ excStr (.typeErr "\x27int\x27 object is not subscriptable")) :=
  ⟨rfl,
   (tools_call_envelope_wellformed sampleEnv rid1
      (callParams "reverse_string" [("text", .int 42)])).2 _ rfl⟩

/-- C5: a `tools/call` naming no registered tool answers -32601 with
"Unknown tool: <name>", and an unrecognized top-level method answers
-32601 with "Method not found: <method>" regardless of the params. -/
theorem unknown_tool_and_unknown_method (env : Env) (rid : Option Json)
    (params : List (String × Json)) (method : Option Json) (paramsJ : Json)
    (hname : ∀ s ∈ registryNames, jEqStr (pyGet params "name") s = false)
    (hm : ∀ s ∈ ["tools/list", "tools/call", "initialize"], jEqStr method s = false) :
    handle_tools_call env rid params =
      errResp rid (-32601) ("Unknown tool: " ++ pyStrOpt (pyGet params "name")) ∧
    handleRequest env method rid paramsJ =
      errResp rid (-32601) ("Method not found: " ++ pyStrOpt method) := by
  constructor
  · have h1 := hname "echo" (by decide)
    have h2 := hname "add_numbers" (by decide)
    have h3 := hname "get_time" (by decide)
    have h4 := hname "reverse_string" (by decide)
    have h5 := hname "server_info" (by decide)
    have h6 := hname "calculate" (by decide)
    have h7 := hname "generate_uuid" (by decide)
    unfold handle_tools_call toolsCallBody
    simp only [h1, h2, h3, h4, h5, h6, h7]
    rfl
  · have h1 := hm "tools/list" (by decide)
    have h2 := hm "tools/call" (by decide)
    have h3 := hm "initialize" (by decide)
    unfold handleRequest
    simp only [h1, h2, h3]
    rfl

theorem unknown_tool_and_unknown_method_witness :
    handle_tools_call sampleEnv rid1 (callParams "nonexistent_tool" []) =
      errResp rid1 (-32601) ("Unknown tool: " ++ pyStrOpt (pyGet (callParams "nonexistent_tool" []) "name")) ∧
    handleRequest sampleEnv (some (.str "resources/list")) rid1 (.obj []) =
      errResp rid1 (-32601) ("Method not found: " ++ pyStrOpt (some (.str "resources/list"))) :=
  unknown_tool_and_unknown_method sampleEnv rid1 (callParams "nonexistent_tool" [])
    (some (.str "resources/list")) (.obj [])
    (by intro s hs; fin_cases hs <;> rfl)
    (by intro s hs; fin_cases hs <;> rfl)

/-- C3: however the calculate tool's string expression fails — malformed,
empty, a division that cannot complete, a token outside the grammar —
the response is `InvalidParams` (-32602) with the offending expression
and the underlying cause embedded in the message; a calculate call never
answers with any other error code, in particular never -32603. -/
theorem calculate_failures_are_invalid_params (env : Env) (rid : Option Json)
    (s : String) :
    (∀ e, calcStr s = .error e →
       handle_tools_call env rid (callParams "calculate" [("expression", .str s)]) =
         errResp rid (-32602)
           ("Invalid expression \x27" ++ s ++ "\x27: " ++ excStr e)) ∧
    (∀ err,
       (handle_tools_call env rid (callParams "calculate" [("expression", .str s)])).error =
         some err → err.code = -32602) := by
  have hbody : toolsCallBody env (callParams "calculate" [("expression", .str s)]) =
      match calcStr s with
      | .ok v => .ok (.success ["Expression: " ++ s ++ "\nResult: " ++ pyStr v])
      | .error e => .ok (.errorOut (-32602) ("Invalid expression \x27" ++ s ++ "\x27: " ++ excStr e)) := by
    rfl
  constructor
  · intro e he
    unfold handle_tools_call
    rw [hbody, he]
  · intro err herr
    unfold handle_tools_call at herr
    rw [hbody] at herr
    cases h : calcStr s with
    | ok v => rw [h] at herr; simp [okResp] at herr
    | error e =>
      rw [h] at herr
      simp [errResp] at herr
      subst herr
      rfl

theorem calculate_failures_are_invalid_params_witness :
    handle_tools_call sampleEnv rid1 (callParams "calculate" [("expression", .str "")]) =
      errResp rid1 (-32602)
        ("Invalid expression \x27\x27: " ++ excStr (.synErr "invalid syntax")) ∧
    handle_tools_call sampleEnv rid1 (callParams "calculate" [("expression", .str "1 / 0")]) =
      errResp rid1 (-32602)
        ("Invalid expression \x271 / 0\x27: " ++ excStr (.zeroDivErr "division by zero")) :=
  ⟨(calculate_failures_are_invalid_params sampleEnv rid1 "").1 _ rfl,
   (calculate_failures_are_invalid_params sampleEnv rid1 "1 / 0").1 _ rfl⟩

/-!
Per-tool reduction lemmas: what `handle_tools_call` computes to once the
tool name is fixed, with the argument lookups left symbolic.
-/

theorem echo_call_eq (env : Env) (rid : Option Json) (args : List (String × Json)) :
    handle_tools_call env rid (callParams "echo" args) =
      okResp rid (contentJson ["Echo: " ++ pyStr ((pyGet args "text").getD (.str ""))]) :=
  rfl

theorem reverse_call_eq (env : Env) (rid : Option Json) (args : List (String × Json)) :
    handle_tools_call env rid (callParams "reverse_string" args) =
      (match pyReverse ((pyGet args "text").getD (.str "")) with
       | .ok rev => okResp rid (contentJson ["Reversed: " ++ pyStr rev])
       | .error e => errResp rid (-32603) ("Internal error: " ++ excStr e)) := by
  have hb : toolsCallBody env (callParams "reverse_string" args) =
      Except.bind (pyReverse ((pyGet args "text").getD (.str "")))
        (fun rev => .ok (.success ["Reversed: " ++ pyStr rev])) := rfl
  unfold handle_tools_call
  rw [hb]
  cases pyReverse ((pyGet args "text").getD (.str "")) <;> rfl

theorem calc_call_eq (env : Env) (rid : Option Json) (args : List (String × Json)) :
    handle_tools_call env rid (callParams "calculate" args) =
      (match calcJson ((pyGet args "expression").getD (.str "")) with
       | .ok v => okResp rid (contentJson
           ["Expression: " ++ pyStr ((pyGet args "expression").getD (.str "")) ++
            "\nResult: " ++ pyStr v])
       | .error e => errResp rid (-32602)
           ("Invalid expression \x27" ++ pyStr ((pyGet args "expression").getD (.str "")) ++
            "\x27: " ++ excStr e)) := by
  have hb : toolsCallBody env (callParams "calculate" args) =
      (match calcJson ((pyGet args "expression").getD (.str "")) with
       | .ok v => .ok (.success
           ["Expression: " ++ pyStr ((pyGet args "expression").getD (.str "")) ++
            "\nResult: " ++ pyStr v])
       | .error e => .ok (.errorOut (-32602)
           ("Invalid expression \x27" ++ pyStr ((pyGet args "expression").getD (.str "")) ++
            "\x27: " ++ excStr e))) := rfl
  unfold handle_tools_call
  rw [hb]
  cases calcJson ((pyGet args "expression").getD (.str "")) <;> rfl

theorem add_call_eq (env : Env) (rid : Option Json) (args : List (String × Json)) :
    handle_tools_call env rid (callParams "add_numbers" args) =
      (match addNumbersCheck (pyGet args "a") (pyGet args "b") with
       | .errorOut c m => errResp rid c m
       | .success ts => okResp rid (contentJson ts)) := by
  have hb : toolsCallBody env (callParams "add_numbers" args) =
      .ok (addNumbersCheck (pyGet args "a") (pyGet args "b")) := rfl
  unfold handle_tools_call
  rw [hb]
  cases addNumbersCheck (pyGet args "a") (pyGet args "b") <;> rfl

/-- The add_numbers check succeeds on two present non-boolean numbers,
with the sum embedded in the text. -/
theorem addNumbersCheck_success (ja jb : Json)
    (hia : isNumNonBool ja = true) (hib : isNumNonBool jb = true) :
    addNumbersCheck (some ja) (some jb) =
      .success ["The sum of " ++ pyStr ja ++ " and " ++ pyStr jb ++ " is " ++
        pyStr (numSum ja jb)] := by
  cases ja <;> cases jb <;> first | rfl | simp [isNumNonBool] at hia hib

/-- C4: add_numbers answers InvalidParams (-32602) when either argument
is absent; InvalidParams with a message naming each received value and
its runtime kind when both are present but either is not a non-boolean
number (booleans are rejected); and a success whose text states the sum
when both are non-boolean numbers. -/
theorem add_numbers_validation (env : Env) (rid : Option Json)
    (args : List (String × Json)) :
    (isPyNone (pyGet args "a") = true ∨ isPyNone (pyGet args "b") = true →
       handle_tools_call env rid (callParams "add_numbers" args) =
         errResp rid (-32602)
           "Invalid params: Both \x27a\x27 and \x27b\x27 parameters are required") ∧
    (∀ ja jb, pyGet args "a" = some ja → pyGet args "b" = some jb →
       ja ≠ .null → jb ≠ .null →
       (isNumNonBool ja = false ∨ isNumNonBool jb = false) →
       handle_tools_call env rid (callParams "add_numbers" args) =
         errResp rid (-32602)
           ("Invalid params: Both parameters must be numbers. Got a=" ++
            pyTypeName ja ++ "(" ++ pyStr ja ++ "), b=" ++
            pyTypeName jb ++ "(" ++ pyStr jb ++ ")")) ∧
    (∀ ja jb, pyGet args "a" = some ja → pyGet args "b" = some jb →
       isNumNonBool ja = true → isNumNonBool jb = true →
       handle_tools_call env rid (callParams "add_numbers" args) =
         okResp rid (contentJson ["The sum of " ++ pyStr ja ++ " and " ++
           pyStr jb ++ " is " ++ pyStr (numSum ja jb)])) := by
  refine ⟨?_, ?_, ?_⟩
  · intro h
    rw [add_call_eq]
    cases ha : pyGet args "a" with
    | none =>
      cases hb : pyGet args "b" with
      | none => rfl
      | some jb => cases jb <;> rfl
    | some ja =>
      cases hb : pyGet args "b" with
      | none => cases ja <;> rfl
      | some jb =>
        rw [ha, hb] at h
        cases ja <;> cases jb <;> first | rfl | simp [isPyNone] at h
  · intro ja jb ha hb hna hnb hnum
    rw [add_call_eq, ha, hb]
    cases ja <;> cases jb <;>
      first
        | rfl
        | exact absurd rfl hna
        | exact absurd rfl hnb
        | simp [isNumNonBool] at hnum
  · intro ja jb ha hb hia hib
    rw [add_call_eq, ha, hb, addNumbersCheck_success ja jb hia hib]

theorem add_numbers_validation_witness :
    handle_tools_call sampleEnv rid1 (callParams "add_numbers" []) =
      errResp rid1 (-32602)
        "Invalid params: Both \x27a\x27 and \x27b\x27 parameters are required" ∧
    handle_tools_call sampleEnv rid1
        (callParams "add_numbers" [("a", .str "5"), ("b", .int 3)]) =
      errResp rid1 (-32602)
        "Invalid params: Both parameters must be numbers. Got a=str(5), b=int(3)" ∧
    handle_tools_call sampleEnv rid1
        (callParams "add_numbers" [("a", .bool true), ("b", .int 1)]) =
      errResp rid1 (-32602)
        "Invalid params: Both parameters must be numbers. Got a=bool(True), b=int(1)" ∧
    handle_tools_call sampleEnv rid1
        (callParams "add_numbers" [("a", .int 5), ("b", .int 3)]) =
      okResp rid1 (contentJson ["The sum of 5 and 3 is 8"]) ∧
    strContains "The sum of 5 and 3 is 8" "8" = true :=
  ⟨(add_numbers_validation sampleEnv rid1 []).1 (.inl rfl),
   (add_numbers_validation sampleEnv rid1 [("a", .str "5"), ("b", .int 3)]).2.1
     (.str "5") (.int 3) rfl rfl (by simp) (by simp) (.inl rfl),
   (add_numbers_validation sampleEnv rid1 [("a", .bool true), ("b", .int 1)]).2.1
     (.bool true) (.int 1) rfl rfl (by simp) (by simp) (.inl rfl),
   (add_numbers_validation sampleEnv rid1 [("a", .int 5), ("b", .int 3)]).2.2
     (.int 5) (.int 3) rfl rfl rfl rfl,
   by decide⟩

/-- C8: for echo and reverse_string the text argument is optional and
defaults to the empty string when absent; echo completes for every JSON
value of text, echoing the value's rendered form, and neither tool ever
answers InvalidParams (-32602) for any text value. -/
theorem echo_reverse_optional_text (env : Env) (rid : Option Json)
    (args : List (String × Json)) :
    handle_tools_call env rid (callParams "echo" args) =
      okResp rid (contentJson ["Echo: " ++ pyStr ((pyGet args "text").getD (.str ""))]) ∧
    (pyGet args "text" = none →
       handle_tools_call env rid (callParams "echo" args) =
         okResp rid (contentJson ["Echo: "]) ∧
       handle_tools_call env rid (callParams "reverse_string" args) =
         okResp rid (contentJson ["Reversed: "])) ∧
    (∀ err,
       (handle_tools_call env rid (callParams "reverse_string" args)).error = some err →
       err.code ≠ -32602) := by
  refine ⟨echo_call_eq env rid args, ?_, ?_⟩
  · intro h
    constructor
    · rw [echo_call_eq, h]
      rfl
    · rw [reverse_call_eq, h]
      rfl
  · intro err herr
    rw [reverse_call_eq] at herr
    cases h : pyReverse ((pyGet args "text").getD (.str "")) with
    | ok rev => rw [h] at herr; simp [okResp] at herr
    | error e =>
      rw [h] at herr
      simp [errResp] at herr
      subst herr
      exact (by decide : (-32603 : Int) ≠ -32602)

theorem echo_reverse_optional_text_witness :
    handle_tools_call sampleEnv rid1 (callParams "echo" [("text", .int 42)]) =
      okResp rid1 (contentJson
        ["Echo: " ++ pyStr ((pyGet [("text", .int 42)] "text").getD (.str ""))]) ∧
    (handle_tools_call sampleEnv rid1 (callParams "echo" []) =
       okResp rid1 (contentJson ["Echo: "]) ∧
     handle_tools_call sampleEnv rid1 (callParams "reverse_string" []) =
       okResp rid1 (contentJson ["Reversed: "])) ∧
    ({ code := -32603,
       message := "Internal error: " ++
         excStr (.typeErr "\x27int\x27 object is not subscriptable") } : ErrObj).code ≠
      -32602 :=
  ⟨(echo_reverse_optional_text sampleEnv rid1 [("text", .int 42)]).1,
   (echo_reverse_optional_text sampleEnv rid1 []).2.1 rfl,
   (echo_reverse_optional_text sampleEnv rid1 [("text", .int 42)]).2.2
     { code := -32603,
       message := "Internal error: " ++
         excStr (.typeErr "\x27int\x27 object is not subscriptable") } rfl⟩

/-- C6: a tools/call naming a registered tool with a well-formed argument
mapping answers with a result — never an error — whose content sequence
is non-empty. -/
theorem valid_calls_return_nonempty_content (env : Env) (rid : Option Json)
    (name : String) (args : List (String × Json))
    (hreg : name ∈ registryNames) (hwf : wellFormedArgs name args) :
    ∃ ts, ts ≠ [] ∧
      handle_tools_call env rid (callParams name args) = okResp rid (contentJson ts) := by
  have hcases : name = "echo" ∨ name = "add_numbers" ∨ name = "get_time" ∨
      name = "reverse_string" ∨ name = "server_info" ∨ name = "calculate" ∨
      name = "generate_uuid" := by
    simpa [registryNames, tools, echoTool, addNumbersTool, getTimeTool,
      reverseStringTool, serverInfoTool, calculateTool, generateUuidTool] using hreg
  rcases hcases with rfl | rfl | rfl | rfl | rfl | rfl | rfl
  · exact ⟨_, by simp, echo_call_eq env rid args⟩
  · simp only [wellFormedArgs, if_pos rfl] at hwf
    obtain ⟨⟨ja, ha, hia⟩, ⟨jb, hb, hib⟩⟩ := hwf
    refine ⟨["The sum of " ++ pyStr ja ++ " and " ++ pyStr jb ++ " is " ++
      pyStr (numSum ja jb)], by simp, ?_⟩
    rw [add_call_eq, ha, hb, addNumbersCheck_success ja jb hia hib]
  · exact ⟨["Current server time: " ++ env.now], by simp, rfl⟩
  · simp only [wellFormedArgs, reduceIte] at hwf
    rcases hwf with h | ⟨s, h⟩
    · exact ⟨["Reversed: "], by simp, by rw [reverse_call_eq, h]; rfl⟩
    · exact ⟨["Reversed: " ++ String.mk s.data.reverse], by simp,
        by rw [reverse_call_eq, h]; rfl⟩
  · exact ⟨["MCP Test Server Info:\n- Version: 1.0.0\n- Protocol: 2024-11-05\n- Tools: " ++
      toString tools.length ++ "\n- Uptime: " ++ env.uptime ++ "\n- PID: " ++
      toString env.pid ++ "\n- Python: " ++ env.pyVersion], by simp, rfl⟩
  · simp only [wellFormedArgs, reduceIte] at hwf
    obtain ⟨s, v, hs, hv⟩ := hwf
    refine ⟨["Expression: " ++ s ++ "\nResult: " ++ pyStr v], by simp, ?_⟩
    rw [calc_call_eq, hs]
    have : calcJson ((some (Json.str s)).getD (.str "")) = calcStr s := rfl
    rw [this, hv]
    rfl
  · exact ⟨["Generated UUID: " ++ env.uuidStr], by simp, rfl⟩

theorem valid_calls_return_nonempty_content_witness :
    "echo" ∈ registryNames ∧ wellFormedArgs "echo" [] ∧
    ∃ ts, ts ≠ [] ∧
      handle_tools_call sampleEnv rid1 (callParams "echo" []) =
        okResp rid1 (contentJson ts) :=
  ⟨by decide, by simp [wellFormedArgs],
   valid_calls_return_nonempty_content sampleEnv rid1 "echo" [] (by decide)
     (by simp [wellFormedArgs])⟩
